import Mathlib

/-!
Shallow embedding of `src/services/geminiService.ts` (the Prompt Adapter of
URDF-Architect) and proofs about it.

Modelling conventions:
* JavaScript strings are Lean `String`s (lists of unicode scalar values).
* JSON numbers are modelled as `Rat`: the adapter never performs arithmetic on
  them, it only copies them and tests them for truthiness, so exact rationals
  are a faithful model of every value JSON can carry (JSON cannot encode NaN
  or infinities).
* A JavaScript field that can be `undefined` or `null` is an `Option`; both
  `undefined` and `null` are `none` (the code only distinguishes them through
  `??` and `||`, which treat them alike).
* The external collaborators (`atob`, `TextDecoder`, the network client and
  `JSON.parse`) are modelled as follows: `atob`/`TextDecoder` are implemented
  below following their standard (WHATWG) behaviour, since the adapter applies
  them to its own static table; the single awaited network response is a
  parameter `response : Except Unit (Option String)` (an exception, or the
  `.text` of the reply, which may be absent); `JSON.parse` composed with the
  subsequent field reads is a parameter `parse : String → Option ParsedResult`
  (`none` models a thrown parse error).
-/

namespace GeminiService

/-- Decides membership in the ECMAScript `\s` / `trim` whitespace class
(WhiteSpace together with LineTerminator). -/
def isSpaceJS (c : Char) : Bool :=
  let n := c.toNat
  n == 9 || n == 10 || n == 11 || n == 12 || n == 13 || n == 32 ||
  n == 160 || n == 0x1680 ||
  (decide (0x2000 ≤ n) && decide (n ≤ 0x200A)) ||
  n == 0x2028 || n == 0x2029 || n == 0x202F || n == 0x205F ||
  n == 0x3000 || n == 0xFEFF

/-- Models `String.prototype.trim`: removes leading and trailing JS whitespace. -/
def jsTrim (s : String) : String :=
  String.mk (((s.data.dropWhile isSpaceJS).reverse.dropWhile isSpaceJS).reverse)

/-- Models the truthiness test `!x` (negated) applied to a string-or-absent
value: `undefined`, `null` and the empty string are falsy. -/
def jsTruthyOptStr (x : Option String) : Bool :=
  match x with
  | some s => s ≠ ""
  | none => false

/-- Models `x || d` for a number-valued field: `undefined`, `null` and `0`
fall through to the default. -/
def jsOrNum (x : Option Rat) (d : Rat) : Rat :=
  match x with
  | some v => if v = 0 then d else v
  | none => d

/-- Models `x || d` for a string-valued field: `undefined`, `null` and the
empty string fall through to the default. -/
def jsOrStr (x : Option String) (d : String) : String :=
  match x with
  | some s => if s = "" then d else s
  | none => d

/-- Models `x ?? d` (nullish coalescing) for a number-valued field: only
`undefined` and `null` fall through to the default. -/
def jsCoalesce (x : Option Rat) (d : Rat) : Rat :=
  x.getD d

/-- Models the optional-chained index read `a?.[i]`. -/
def jsIndex (a : Option (List Rat)) (i : Nat) : Option Rat :=
  match a with
  | some l => l.get? i
  | none => none

/-! ### `b64DecodeUnicode`: `atob` plus UTF-8 `TextDecoder` -/

/-- Decides membership in the ASCII-whitespace class that forgiving-base64
decoding strips (TAB, LF, FF, CR, SPACE). -/
def isAsciiWS (c : Char) : Bool :=
  let n := c.toNat
  n == 9 || n == 10 || n == 12 || n == 13 || n == 32

/-- Value of one base64 alphabet character, `none` for a character outside the
alphabet. -/
def b64Val (c : Char) : Option Nat :=
  if 65 ≤ c.toNat ∧ c.toNat ≤ 90 then some (c.toNat - 65)
  else if 97 ≤ c.toNat ∧ c.toNat ≤ 122 then some (c.toNat - 97 + 26)
  else if 48 ≤ c.toNat ∧ c.toNat ≤ 57 then some (c.toNat - 48 + 52)
  else if c = '+' then some 62
  else if c = '/' then some 63
  else none

/-- Values of a list of base64 characters, `none` if any is invalid. -/
def b64Vals : List Char → Option (List Nat)
  | [] => some []
  | c :: tl =>
    match b64Val c, b64Vals tl with
    | some v, some vs => some (v :: vs)
    | _, _ => none

/-- Removes up to two trailing padding characters when the length is a
multiple of four (forgiving-base64, step 2). -/
def stripPadding (cs : List Char) : List Char :=
  if cs.length % 4 = 0 then
    match cs.reverse with
    | '=' :: '=' :: rest => rest.reverse
    | '=' :: rest => rest.reverse
    | _ => cs
  else cs

/-- Packs groups of 6-bit values into bytes; a trailing group of one value
cannot occur on valid input (length mod 4 is not 1) and yields nothing. -/
def quadsToBytes : List Nat → List Nat
  | a :: b :: c :: d :: rest =>
    (a * 4 + b / 16) :: ((b % 16) * 16 + c / 4) :: ((c % 4) * 64 + d) :: quadsToBytes rest
  | [a, b, c] => [a * 4 + b / 16, (b % 16) * 16 + c / 4]
  | [a, b] => [a * 4 + b / 16]
  | [_] => []
  | [] => []

/-- Models `atob`: forgiving-base64 decode to a byte list, `none` models the
`InvalidCharacterError` it throws. -/
def atobBytes (s : String) : Option (List Nat) :=
  let cs := stripPadding (s.data.filter (fun c => ¬ isAsciiWS c))
  if cs.length % 4 = 1 then none
  else
    match b64Vals cs with
    | none => none
    | some vals => some (quadsToBytes vals)

/-- Unicode replacement character, emitted by a non-fatal `TextDecoder` on
malformed input. -/
def replChar : Char := Char.ofNat 0xFFFD

/-- Decides whether a byte is a UTF-8 continuation byte. -/
def isCont (b : Nat) : Bool :=
  decide (0x80 ≤ b) && decide (b ≤ 0xBF)

/-- Fuelled UTF-8 decoding loop; every step consumes at least one byte, so
fuel equal to the byte count suffices. Fuel keeps the recursion structural and
hence kernel-reducible. -/
def utf8DecodeF : Nat → List Nat → List Char
  | 0, _ => []
  | _, [] => []
  | fuel + 1, b1 :: bs =>
    if b1 < 0x80 then Char.ofNat b1 :: utf8DecodeF fuel bs
    else if b1 < 0xC2 then replChar :: utf8DecodeF fuel bs
    else if b1 < 0xE0 then
      match bs with
      | [] => [replChar]
      | b2 :: bs2 =>
        if isCont b2 then
          Char.ofNat ((b1 - 0xC0) * 64 + (b2 - 0x80)) :: utf8DecodeF fuel bs2
        else replChar :: utf8DecodeF fuel bs
    else if b1 < 0xF0 then
      match bs with
      | [] => [replChar]
      | b2 :: bs2 =>
        let lo := if b1 = 0xE0 then 0xA0 else 0x80
        let hi := if b1 = 0xED then 0x9F else 0xBF
        if decide (lo ≤ b2) && decide (b2 ≤ hi) then
          match bs2 with
          | [] => [replChar]
          | b3 :: bs3 =>
            if isCont b3 then
              Char.ofNat ((b1 - 0xE0) * 4096 + (b2 - 0x80) * 64 + (b3 - 0x80)) ::
                utf8DecodeF fuel bs3
            else replChar :: utf8DecodeF fuel bs2
        else replChar :: utf8DecodeF fuel bs
    else if b1 < 0xF5 then
      match bs with
      | [] => [replChar]
      | b2 :: bs2 =>
        let lo := if b1 = 0xF0 then 0x90 else 0x80
        let hi := if b1 = 0xF4 then 0x8F else 0xBF
        if decide (lo ≤ b2) && decide (b2 ≤ hi) then
          match bs2 with
          | [] => [replChar]
          | b3 :: bs3 =>
            if isCont b3 then
              match bs3 with
              | [] => [replChar]
              | b4 :: bs4 =>
                if isCont b4 then
                  Char.ofNat ((b1 - 0xF0) * 262144 + (b2 - 0x80) * 4096 +
                    (b3 - 0x80) * 64 + (b4 - 0x80)) :: utf8DecodeF fuel bs4
                else replChar :: utf8DecodeF fuel bs3
            else replChar :: utf8DecodeF fuel bs2
        else replChar :: utf8DecodeF fuel bs
    else replChar :: utf8DecodeF fuel bs

/-- Models `new TextDecoder().decode` (UTF-8, non-fatal): decodes a byte list
to characters, emitting the replacement character on malformed sequences. -/
def utf8Decode (bs : List Nat) : List Char :=
  utf8DecodeF bs.length bs

/-- Embeds `b64DecodeUnicode` from the source: `atob` then UTF-8 decode; a
decoding failure is caught and degrades to the empty string. -/
def b64DecodeUnicode (s : String) : String :=
  match atobBytes s with
  | none => ""
  | some bytes => String.mk (utf8Decode bytes)

/-! ### The trigger table -/

/-- Embeds the `EGGS` table from the source, in `Object.entries` order
(insertion order of the object literal). -/
def EGGS : List (String × String) :=
  [ ("6L6+5aaZ56eR5oqA", "5Y+R5p2l6LS655S1"),
    ("54G16Laz5pe25Luj", "56Wd5L2g5oiQ5Yqf"),
    ("5Zug5YWL5pav5pm66IO9", "56Wd6ICB5p2/5aW95biF77yB"),
    ("6auY5pOO5py655S1", "5oiR54ix5bCP5rS+77yB"),
    ("5Zyw55Oc5py65LmZ5Lq6", "5Y+R5p2l54Oo5Zyw55Oc") ]

/-- Embeds the easter-egg loop: the first table entry whose decoded key equals
the trimmed prompt yields its decoded value. -/
def eggLookup (trimPrompt : String) : Option String :=
  match EGGS.find? (fun kv => b64DecodeUnicode kv.1 == trimPrompt) with
  | some kv => some (b64DecodeUnicode kv.2)
  | none => none

/-! ### Wire shapes: the parsed service reply -/

/-- Wire shape of one element of `robotData.links` as the code reads it: every
field may be absent. -/
structure LinkWire where
  id : Option String
  name : Option String
  visualType : Option String
  dimensions : Option (List Rat)
  color : Option String
  mass : Option Rat
deriving DecidableEq

/-- Wire shape of one element of `robotData.joints` as the code reads it. -/
structure JointWire where
  id : Option String
  name : Option String
  type : Option String
  parentLinkId : Option String
  childLinkId : Option String
  originXYZ : Option (List Rat)
  originRPY : Option (List Rat)
  axis : Option (List Rat)
  motorType : Option String
  lowerLimit : Option Rat
  upperLimit : Option Rat
  effortLimit : Option Rat
  velocityLimit : Option Rat
deriving DecidableEq

/-- Wire shape of `result.robotData`. -/
structure RobotDataWire where
  name : Option String
  links : Option (List LinkWire)
  joints : Option (List JointWire)
  rootLinkId : Option String
deriving DecidableEq

/-- Result of `JSON.parse` followed by the three field reads the code
performs on it. -/
structure ParsedResult where
  explanation : Option String
  actionType : Option String
  robotData : Option RobotDataWire
deriving DecidableEq

/-! ### Internal record shapes (the mapper's output) -/

/-- Vector with x, y, z components. -/
structure Vec3 where
  x : Rat
  y : Rat
  z : Rat
deriving DecidableEq

/-- Roll-pitch-yaw triple. -/
structure RPY where
  r : Rat
  p : Rat
  y : Rat
deriving DecidableEq

/-- Origin: position plus orientation. -/
structure OriginRec where
  xyz : Vec3
  rpy : RPY
deriving DecidableEq

/-- Inertia tensor components. -/
structure InertiaRec where
  ixx : Rat
  ixy : Rat
  ixz : Rat
  iyy : Rat
  iyz : Rat
  izz : Rat
deriving DecidableEq

/-- Inertial block of an internal link record. -/
structure InertialRec where
  mass : Rat
  inertia : InertiaRec
deriving DecidableEq

/-- Visual or collision block of an internal link record. -/
structure VisualRec where
  type : Option String
  dimensions : Vec3
  color : String
  origin : OriginRec
deriving DecidableEq

/-- Internal link record produced by the mapper. -/
structure LinkRec where
  id : Option String
  name : Option String
  inertial : InertialRec
  visual : VisualRec
  collision : VisualRec
deriving DecidableEq

/-- Limit block of an internal joint record. -/
structure LimitRec where
  lower : Rat
  upper : Rat
  effort : Rat
  velocity : Rat
deriving DecidableEq

/-- Dynamics block of an internal joint record. -/
structure DynamicsRec where
  damping : Rat
  friction : Rat
deriving DecidableEq

/-- Hardware block of an internal joint record. -/
structure HardwareRec where
  armature : Rat
  motorType : String
  motorId : String
  motorDirection : Rat
deriving DecidableEq

/-- Internal joint record produced by the mapper. -/
structure JointRec where
  id : Option String
  name : Option String
  type : Option String
  parentLinkId : Option String
  childLinkId : Option String
  origin : OriginRec
  axis : Vec3
  limit : LimitRec
  dynamics : DynamicsRec
  hardware : HardwareRec
deriving DecidableEq

/-- Mapped `Partial<RobotState>`: name, link map, joint map, root id. The two
maps are association lists in JavaScript object insertion order. -/
structure RobotStatePart where
  name : String
  links : List (String × LinkRec)
  joints : List (String × JointRec)
  rootLinkId : Option String
deriving DecidableEq

/-- Full result record of the adapter (`AIResponse`); fields are copied from
the parsed reply without validation, so each may be absent. -/
structure AIResponse where
  explanation : Option String
  actionType : Option String
  robotData : Option RobotStatePart
deriving DecidableEq

/-! ### The robot-data mapper -/

/-- Identity origin literal used by the mapper. -/
def identityOrigin : OriginRec :=
  { xyz := { x := 0, y := 0, z := 0 }, rpy := { r := 0, p := 0, y := 0 } }

/-- Embeds the link-mapping body of the `data.links.forEach` loop. -/
def mapLink (l : LinkWire) : LinkRec :=
  let dims : Vec3 :=
    { x := jsOrNum (jsIndex l.dimensions 0) (mkRat 1 10),
      y := jsOrNum (jsIndex l.dimensions 1) (mkRat 1 10),
      z := jsOrNum (jsIndex l.dimensions 2) (mkRat 1 10) }
  { id := l.id,
    name := l.name,
    inertial :=
      { mass := jsOrNum l.mass 1,
        inertia := { ixx := mkRat 1 10, ixy := 0, ixz := 0, iyy := mkRat 1 10,
                     iyz := 0, izz := mkRat 1 10 } },
    visual :=
      { type := l.visualType,
        dimensions := dims,
        color := jsOrStr l.color "#3b82f6",
        origin := identityOrigin },
    collision :=
      { type := l.visualType,
        dimensions := dims,
        color := "#ef4444",
        origin := identityOrigin } }

/-- Embeds the joint-mapping body of the `data.joints.forEach` loop. -/
def mapJoint (j : JointWire) : JointRec :=
  { id := j.id,
    name := j.name,
    type := j.type,
    parentLinkId := j.parentLinkId,
    childLinkId := j.childLinkId,
    origin :=
      { xyz :=
          { x := jsOrNum (jsIndex j.originXYZ 0) 0,
            y := jsOrNum (jsIndex j.originXYZ 1) 0,
            z := jsOrNum (jsIndex j.originXYZ 2) 0 },
        rpy :=
          { r := jsOrNum (jsIndex j.originRPY 0) 0,
            p := jsOrNum (jsIndex j.originRPY 1) 0,
            y := jsOrNum (jsIndex j.originRPY 2) 0 } },
    axis :=
      { x := jsOrNum (jsIndex j.axis 0) 0,
        y := jsOrNum (jsIndex j.axis 1) 0,
        z := jsOrNum (jsIndex j.axis 2) 1 },
    limit :=
      { lower := jsCoalesce j.lowerLimit (mkRat (-157) 100),
        upper := jsCoalesce j.upperLimit (mkRat 157 100),
        effort := jsCoalesce j.effortLimit 100,
        velocity := jsCoalesce j.velocityLimit 10 },
    dynamics := { damping := 0, friction := 0 },
    hardware :=
      { armature := 0,
        motorType := jsOrStr j.motorType "None",
        motorId := "",
        motorDirection := 1 } }

/-- Key used when a record is stored under `obj[x]`: JavaScript converts an
`undefined` property key to the string "undefined". -/
def jsKey (x : Option String) : String :=
  match x with
  | some s => s
  | none => "undefined"

/-- Models the property assignment `m[k] = v` on a JavaScript object viewed as
an insertion-ordered association list: an existing key is overwritten in
place, a new key is appended. -/
def insertRec {α : Type} (m : List (String × α)) (k : String) (v : α) : List (String × α) :=
  if m.any (fun p => p.1 == k) then
    m.map (fun p => if p.1 == k then (k, v) else p)
  else m ++ [(k, v)]

/-- Embeds the `data.links.forEach` loop building `newLinks`. -/
def mapLinks (ls : List LinkWire) : List (String × LinkRec) :=
  ls.foldl (fun m l => insertRec m (jsKey l.id) (mapLink l)) []

/-- Embeds the `data.joints.forEach` loop building `newJoints`. -/
def mapJoints (js : List JointWire) : List (String × JointRec) :=
  js.foldl (fun m j => insertRec m (jsKey j.id) (mapJoint j)) []

/-- Embeds the whole `if (data) { ... }` mapping block: builds
`finalRobotState` from a present `robotData` payload. -/
def mapRobotData (d : RobotDataWire) : RobotStatePart :=
  { name := jsOrStr d.name "modified_robot",
    links := match d.links with
      | some ls => mapLinks ls
      | none => [],
    joints := match d.joints with
      | some js => mapJoints js
      | none => [],
    rootLinkId := d.rootLinkId }

/-- Embeds the final `return` record: explanation and actionType copied from
the parsed result, `robotData` mapped when present. -/
def buildResponse (result : ParsedResult) : AIResponse :=
  { explanation := result.explanation,
    actionType := result.actionType,
    robotData := result.robotData.map mapRobotData }

/-! ### JSON extraction -/

/-- Decides whether a character list starts with a triple-backtick fence. -/
def startsFence : List Char → Bool
  | '`' :: '`' :: '`' :: _ => true
  | _ => false

/-- Characters strictly before the first triple-backtick fence, or `none`
when no fence occurs. -/
def beforeFence : List Char → Option (List Char)
  | [] => none
  | c :: tl =>
    if startsFence (c :: tl) then some []
    else match beforeFence tl with
      | some pre => some (c :: pre)
      | none => none

/-- Removes trailing JS whitespace. -/
def rstripJS (l : List Char) : List Char :=
  (l.reverse.dropWhile isSpaceJS).reverse

/-- Drops a literal "json" language tag, as the greedy optional group
`(?:json)?` does. -/
def dropJsonTag : List Char → List Char
  | 'j' :: 's' :: 'o' :: 'n' :: rest => rest
  | l => l

/-- Capture group of the fence regex once the opening fence and optional tag
are consumed: skip greedy leading whitespace, take everything up to the next
fence, strip trailing whitespace. Fails when no closing fence exists. -/
def fencedBody (s : List Char) : Option (List Char) :=
  match beforeFence (s.dropWhile isSpaceJS) with
  | some pre => some (rstripJS pre)
  | none => none

/-- Attempts the fence regex at the current position. -/
def matchFenceAt : List Char → Option (List Char)
  | '`' :: '`' :: '`' :: rest => fencedBody (dropJsonTag rest)
  | _ => none

/-- Leftmost match of the fence regex over the whole text. -/
def findFenced : List Char → Option (List Char)
  | [] => none
  | c :: tl =>
    match matchFenceAt (c :: tl) with
    | some g => some g
    | none => findFenced tl

/-- Models `text.match(/```(?:json)?\s*([\s\S]*?)\s*```/)`: capture group 1 of
the leftmost match, or `none` when the regex does not match. -/
def fencedBlockContent (t : String) : Option String :=
  match findFenced t.data with
  | some g => some (String.mk g)
  | none => none

/-- Index of the first occurrence of a character (models `indexOf`,
with `none` for -1). -/
def firstIdxOf : List Char → Char → Option Nat
  | [], _ => none
  | a :: tl, c =>
    if a = c then some 0
    else match firstIdxOf tl c with
      | some i => some (i + 1)
      | none => none

/-- Index of the last occurrence of a character (models `lastIndexOf`,
with `none` for -1). -/
def lastIdxOf (cs : List Char) (c : Char) : Option Nat :=
  match firstIdxOf cs.reverse c with
  | some i => some (cs.length - 1 - i)
  | none => none

/-- Fallback extraction: the substring from the first opening brace to the
last closing brace inclusive, provided the latter is strictly beyond the
former; otherwise the empty string (the `jsonString` initializer). -/
def braceSpan (t : String) : String :=
  match firstIdxOf t.data '\x7b', lastIdxOf t.data '\x7d' with
  | some i, some j =>
    if i < j then String.mk ((t.data.drop i).take (j + 1 - i)) else ""
  | _, _ => ""

/-- Embeds the whole JSON-extraction block: value of `jsonString` for a given
reply text. -/
def extractJsonString (t : String) : String :=
  match fencedBlockContent t with
  | some g => g
  | none => braceSpan t

/-! ### The pipeline after the network response -/

/-- Embeds everything the code does with the awaited response: the `!text`
guard, JSON extraction, the `!jsonString` guard, `JSON.parse` (abstracted as
`parse`; `none` models a thrown parse error, caught by the outer handler) and
the mapping into the final record. -/
def processText (text : Option String) (parse : String → Option ParsedResult) :
    Option AIResponse :=
  match text with
  | none => none
  | some t =>
    if t = "" then none
    else if extractJsonString t = "" then none
    else
      match parse (extractJsonString t) with
      | none => none
      | some result => some (buildResponse result)

/-- Embeds `generateRobotFromPrompt`. The robot/motor context arguments only
feed the outgoing request payload, which is absorbed into the abstract
`response`; `apiKey` is `process.env.API_KEY`; `response` is the awaited
network call (`Except.error` models a thrown network exception, handled by the
outer catch; the payload is `response.text`). -/
def generateRobotFromPrompt (prompt : String) (apiKey : Option String)
    (response : Except Unit (Option String))
    (parse : String → Option ParsedResult) : Option AIResponse :=
  match eggLookup (jsTrim prompt) with
  | some v => some { explanation := some v, actionType := some "advice", robotData := none }
  | none =>
    if jsTruthyOptStr apiKey then
      match response with
      | Except.error _ => none
      | Except.ok text => processText text parse
    else
      some { explanation := some "API Key is missing. Please configure the environment.",
             actionType := some "advice", robotData := none }

/-! ### Concrete sample inputs used by counterexamples and witnesses -/

/-- Joint descriptor whose four limit fields are all the explicit number 0. -/
def jointAllZeroLimits : JointWire :=
  { id := some "j0", name := some "j0", type := some "revolute",
    parentLinkId := some "a", childLinkId := some "b",
    originXYZ := none, originRPY := none, axis := none, motorType := none,
    lowerLimit := some 0, upperLimit := some 0,
    effortLimit := some 0, velocityLimit := some 0 }

/-- Link descriptor with an explicit zero dimension component and explicit
zero mass. -/
def linkZeroFields : LinkWire :=
  { id := some "base", name := some "base", visualType := some "box",
    dimensions := some [0, 2, 3], color := some "#fff", mass := some 0 }

/-- Joint descriptor whose rotation axis is the x axis `[1, 0, 0]`, so its z
component is the explicit number 0. -/
def jointAxisX : JointWire :=
  { id := some "j1", name := some "j1", type := some "revolute",
    parentLinkId := some "a", childLinkId := some "b",
    originXYZ := some [0, 0, 0], originRPY := none, axis := some [1, 0, 0],
    motorType := none, lowerLimit := none, upperLimit := none,
    effortLimit := none, velocityLimit := none }

/-- Link descriptor whose id is the empty string. -/
def emptyIdLink : LinkWire :=
  { id := some "", name := some "n", visualType := some "box",
    dimensions := some [1, 2, 3], color := some "#fff", mass := some 2 }

/-- Robot-data payload containing a link whose id is the empty string. -/
def emptyIdPayload : RobotDataWire :=
  { name := some "r", links := some [emptyIdLink], joints := some [],
    rootLinkId := some "" }

/-- Parsed reply carrying `emptyIdPayload`. -/
def emptyIdParsed : ParsedResult :=
  { explanation := some "ok", actionType := some "generation",
    robotData := some emptyIdPayload }

/-- Link descriptor with a well-formed non-empty id. -/
def goodLink : LinkWire :=
  { id := some "base_link", name := some "base", visualType := some "cylinder",
    dimensions := some [mkRat 1 5, mkRat 1 5, mkRat 1 2], color := none, mass := some 3 }

/-- Joint descriptor with a well-formed non-empty id. -/
def goodJoint : JointWire :=
  { id := some "joint1", name := some "hip", type := some "revolute",
    parentLinkId := some "base_link", childLinkId := some "arm",
    originXYZ := none, originRPY := none, axis := none,
    motorType := some "GO-M8010-6", lowerLimit := some (-1),
    upperLimit := some 1, effortLimit := none, velocityLimit := none }

/-- Robot-data payload whose every descriptor has a non-empty id. -/
def goodPayload : RobotDataWire :=
  { name := some "r2", links := some [goodLink], joints := some [goodJoint],
    rootLinkId := some "base_link" }

/-- Reply text holding a fenced block with whitespace-only inner content and,
outside the fence, a valid brace-delimited JSON object. -/
def emptyFenceReply : String :=
  "```   ``` \x7b\"explanation\":\"x\",\"actionType\":\"advice\"\x7d"

/-! ## Helper lemmas -/

/-- When the trimmed prompt matches no trigger key and the credential is a
non-empty string, the adapter is the response pipeline applied to the awaited
reply. -/
theorem gen_ok_eq_processText (prompt : String) (k : String) (hk : k ≠ "")
    (hEgg : eggLookup (jsTrim prompt) = none)
    (text : Option String) (parse : String → Option ParsedResult) :
    generateRobotFromPrompt prompt (some k) (Except.ok text) parse =
      processText text parse := by
  unfold generateRobotFromPrompt
  rw [hEgg]
  simp [jsTruthyOptStr, hk]

/-- When the trimmed prompt matches no trigger key and the credential is a
non-empty string, a thrown network exception is converted to `null`. -/
theorem gen_network_error (prompt : String) (k : String) (hk : k ≠ "")
    (hEgg : eggLookup (jsTrim prompt) = none)
    (parse : String → Option ParsedResult) :
    generateRobotFromPrompt prompt (some k) (Except.error ()) parse = none := by
  unfold generateRobotFromPrompt
  rw [hEgg]
  simp [jsTruthyOptStr, hk]

/-- An empty extraction candidate makes the pipeline return `null`. -/
theorem processText_empty_extract (t : String)
    (parse : String → Option ParsedResult) (hx : extractJsonString t = "") :
    processText (some t) parse = none := by
  unfold processText
  by_cases ht : t = ""
  · simp [ht]
  · simp [ht, hx]

/-- A parse failure on the extracted candidate makes the pipeline return
`null`. -/
theorem processText_parse_none (t : String)
    (parse : String → Option ParsedResult)
    (hp : parse (extractJsonString t) = none) :
    processText (some t) parse = none := by
  unfold processText
  by_cases ht : t = ""
  · simp [ht]
  · by_cases hx : extractJsonString t = ""
    · simp [ht, hx]
    · simp [ht, hx, hp]

/-- A non-`null` pipeline result is exactly the built response of a
successful parse of the extracted candidate. -/
theorem processText_some_inv (t : String)
    (parse : String → Option ParsedResult) (r : AIResponse)
    (h : processText (some t) parse = some r) :
    ∃ pr, parse (extractJsonString t) = some pr ∧ r = buildResponse pr := by
  simp only [processText] at h
  by_cases ht : t = ""
  · simp [ht] at h
  · rw [if_neg ht] at h
    by_cases hx : extractJsonString t = ""
    · rw [if_pos hx] at h
      exact absurd h (by simp)
    · rw [if_neg hx] at h
      cases hp : parse (extractJsonString t) with
      | none => rw [hp] at h; exact absurd h (by simp)
      | some pr =>
        rw [hp] at h
        refine ⟨pr, rfl, ?_⟩
        have := Option.some.inj h
        exact this.symm

/-- A successful easter-egg lookup short-circuits the whole adapter. -/
theorem gen_egg_hit (prompt : String) (v : String)
    (h : eggLookup (jsTrim prompt) = some v) (apiKey : Option String)
    (response : Except Unit (Option String))
    (parse : String → Option ParsedResult) :
    generateRobotFromPrompt prompt apiKey response parse =
      some { explanation := some v, actionType := some "advice",
             robotData := none } := by
  unfold generateRobotFromPrompt
  rw [h]

/-- Membership in the result of one JS-object assignment comes from the old
map or is the new binding. -/
theorem mem_insertRec {α : Type} {m : List (String × α)} {k : String} {v : α}
    {kv : String × α} (h : kv ∈ insertRec m k v) : kv ∈ m ∨ kv = (k, v) := by
  unfold insertRec at h
  by_cases hc : m.any (fun p => p.1 == k)
  · rw [if_pos hc] at h
    rcases List.mem_map.mp h with ⟨p, hp, he⟩
    by_cases hpk : p.1 == k
    · right
      rw [if_pos hpk] at he
      exact he.symm
    · left
      rw [if_neg hpk] at he
      exact he ▸ hp
  · rw [if_neg hc] at h
    rcases List.mem_append.mp h with h1 | h1
    · left; exact h1
    · right; simpa using h1

/-- Every entry of the map folded from a descriptor list is the image of some
descriptor of the list (or was in the accumulator). -/
theorem mem_foldl_insertRec {α β : Type} (key : β → String) (val : β → α)
    (ls : List β) (acc : List (String × α)) (kv : String × α)
    (h : kv ∈ ls.foldl (fun m b => insertRec m (key b) (val b)) acc) :
    kv ∈ acc ∨ ∃ b, b ∈ ls ∧ kv = (key b, val b) := by
  induction ls generalizing acc with
  | nil => left; simpa using h
  | cons b tl ih =>
    simp only [List.foldl_cons] at h
    rcases ih (insertRec acc (key b) (val b)) h with h1 | ⟨b2, hb2, he⟩
    · rcases mem_insertRec h1 with h2 | h2
      · left; exact h2
      · right; exact ⟨b, List.mem_cons_self b tl, h2⟩
    · right; exact ⟨b2, List.mem_cons_of_mem b hb2, he⟩

/-! ## Claim theorems -/

/-- Claim C1: for every key in the trigger table, a prompt that trims to the
exact decoded key text makes the adapter return `actionType = "advice"` with
the decoded value as explanation and no robot data; the result does not
depend on the network or parser arguments, so the external service is never
invoked. -/
theorem easterEgg_trigger (key val : String) (hmem : (key, val) ∈ EGGS)
    (prompt : String) (htrim : jsTrim prompt = b64DecodeUnicode key)
    (apiKey : Option String) (response : Except Unit (Option String))
    (parse : String → Option ParsedResult) :
    generateRobotFromPrompt prompt apiKey response parse =
      some { explanation := some (b64DecodeUnicode val),
             actionType := some "advice", robotData := none } := by
  simp only [EGGS, List.mem_cons, List.not_mem_nil, or_false] at hmem
  rcases hmem with h | h | h | h | h <;>
    (rw [Prod.mk.injEq] at h
     obtain ⟨hk, hv⟩ := h
     subst hk
     subst hv
     apply gen_egg_hit
     rw [htrim]
     decide)

/-- Witness for C1 at the second trigger table entry. -/
theorem easterEgg_trigger_witness :
    generateRobotFromPrompt (b64DecodeUnicode "54G16Laz5pe25Luj") none
        (Except.error ()) (fun _ => none) =
      some { explanation := some (b64DecodeUnicode "56Wd5L2g5oiQ5Yqf"),
             actionType := some "advice", robotData := none } :=
  easterEgg_trigger "54G16Laz5pe25Luj" "56Wd5L2g5oiQ5Yqf" (by decide)
    (b64DecodeUnicode "54G16Laz5pe25Luj") (by decide) none (Except.error ())
    (fun _ => none)

/-- Claim C2: when the trimmed prompt matches no trigger key and no
credential is configured, the adapter returns the fixed missing-credential
advice with no robot data; the result does not depend on the network or
parser arguments, so no network call is attempted. -/
theorem missing_api_key (prompt : String)
    (h : ∀ kv ∈ EGGS, b64DecodeUnicode kv.1 ≠ jsTrim prompt)
    (response : Except Unit (Option String))
    (parse : String → Option ParsedResult) :
    generateRobotFromPrompt prompt none response parse =
      some { explanation := some "API Key is missing. Please configure the environment.",
             actionType := some "advice", robotData := none } := by
  have h1 : eggLookup (jsTrim prompt) = none := by
    unfold eggLookup
    have h2 : EGGS.find? (fun kv => b64DecodeUnicode kv.1 == jsTrim prompt) = none := by
      rw [List.find?_eq_none]
      intro kv hkv
      simpa using h kv hkv
    rw [h2]
  unfold generateRobotFromPrompt
  rw [h1]
  rfl

/-- Witness for C2 at a prompt matching no trigger key. -/
theorem missing_api_key_witness :
    generateRobotFromPrompt "hello robot" none (Except.ok none) (fun _ => none) =
      some { explanation := some "API Key is missing. Please configure the environment.",
             actionType := some "advice", robotData := none } :=
  missing_api_key "hello robot" (by decide) (Except.ok none) (fun _ => none)

/-- Claim C3: the extraction step prefers the inner content of a fenced
triple-backtick block when the fence regex matches, otherwise takes the
first-brace-to-last-brace span; an empty candidate makes the adapter return
`null`. -/
theorem json_extraction_order (t : String) :
    (∀ g, fencedBlockContent t = some g → extractJsonString t = g) ∧
    (fencedBlockContent t = none → extractJsonString t = braceSpan t) ∧
    (∀ prompt k parse, k ≠ "" → eggLookup (jsTrim prompt) = none →
      extractJsonString t = "" →
      generateRobotFromPrompt prompt (some k) (Except.ok (some t)) parse = none) := by
  refine ⟨?_, ?_, ?_⟩
  · intro g hg
    unfold extractJsonString
    rw [hg]
  · intro hg
    unfold extractJsonString
    rw [hg]
  · intro prompt k parse hk hEgg hx
    rw [gen_ok_eq_processText prompt k hk hEgg (some t) parse]
    exact processText_empty_extract t parse hx

/-- Witness for C3: a fenced reply, a prose-embedded reply, and a reply with
no candidate at all. -/
theorem json_extraction_order_witness :
    extractJsonString "pre ```json\n \x7b\"a\":1\x7d \n``` post" = "\x7b\"a\":1\x7d" ∧
    extractJsonString "noise \x7b\"b\":2\x7d tail" = "\x7b\"b\":2\x7d" ∧
    generateRobotFromPrompt "hello robot" (some "k")
      (Except.ok (some "no json here")) (fun _ => none) = none := by
  refine ⟨?_, ?_, ?_⟩
  · exact (json_extraction_order "pre ```json\n \x7b\"a\":1\x7d \n``` post").1
      "\x7b\"a\":1\x7d" (by decide)
  · exact ((json_extraction_order "noise \x7b\"b\":2\x7d tail").2.1
      (by decide)).trans (by decide)
  · exact (json_extraction_order "no json here").2.2 "hello robot" "k"
      (fun _ => none) (by decide) (by decide) (by decide)

/-- Claim C4: the four limit defaults use nullish coalescing, so they apply
exactly when the wire field is null or absent; an explicit numeric zero is
preserved. -/
theorem joint_limit_nullish (j : JointWire) :
    (mapJoint j).limit.lower = j.lowerLimit.getD (mkRat (-157) 100) ∧
    (mapJoint j).limit.upper = j.upperLimit.getD (mkRat 157 100) ∧
    (mapJoint j).limit.effort = j.effortLimit.getD 100 ∧
    (mapJoint j).limit.velocity = j.velocityLimit.getD 10 ∧
    (j.lowerLimit = some 0 → (mapJoint j).limit.lower = 0) ∧
    (j.upperLimit = some 0 → (mapJoint j).limit.upper = 0) ∧
    (j.effortLimit = some 0 → (mapJoint j).limit.effort = 0) ∧
    (j.velocityLimit = some 0 → (mapJoint j).limit.velocity = 0) := by
  refine ⟨rfl, rfl, rfl, rfl, ?_, ?_, ?_, ?_⟩ <;>
    (intro h; simp [mapJoint, jsCoalesce, h])

/-- Witness for C4 at a joint whose four limit fields are all explicitly 0. -/
theorem joint_limit_nullish_witness :
    (mapJoint jointAllZeroLimits).limit.lower = 0 ∧
    (mapJoint jointAllZeroLimits).limit.upper = 0 ∧
    (mapJoint jointAllZeroLimits).limit.effort = 0 ∧
    (mapJoint jointAllZeroLimits).limit.velocity = 0 :=
  ⟨(joint_limit_nullish jointAllZeroLimits).2.2.2.2.1 rfl,
   (joint_limit_nullish jointAllZeroLimits).2.2.2.2.2.1 rfl,
   (joint_limit_nullish jointAllZeroLimits).2.2.2.2.2.2.1 rfl,
   (joint_limit_nullish jointAllZeroLimits).2.2.2.2.2.2.2 rfl⟩

/-- Claim C5 is violated by the code: dimensions and mass are defaulted with
the truthiness operator, so an explicit zero dimension component becomes 0.1
and an explicit zero mass becomes 1.0. -/
theorem link_zero_dims_mass_bug :
    linkZeroFields.dimensions = some [0, 2, 3] ∧
    linkZeroFields.mass = some 0 ∧
    (mapLink linkZeroFields).visual.dimensions = { x := mkRat 1 10, y := 2, z := 3 } ∧
    (mapLink linkZeroFields).inertial.mass = 1 := by
  refine ⟨rfl, rfl, ?_, ?_⟩ <;> decide

/-- Claim C6 is violated by the code for the z component: the axis is
defaulted with the truthiness operator, so the explicit z = 0 of the x-axis
`[1, 0, 0]` becomes the default 1. -/
theorem joint_axis_z_zero_bug :
    jointAxisX.axis = some [1, 0, 0] ∧
    (mapJoint jointAxisX).axis = { x := 1, y := 0, z := 1 } := by
  refine ⟨rfl, ?_⟩
  decide

/-- Claim C7: once the call reaches the external request, a network
exception, a missing or empty reply text, or a parse failure all produce a
`null` return, and any non-`null` return is the complete built response of a
successful parse (no partial results; the embedded adapter is a total
function, so no exception propagates). -/
theorem outer_failure_null (prompt : String) (k : String)
    (parse : String → Option ParsedResult) (hk : k ≠ "")
    (hEgg : eggLookup (jsTrim prompt) = none) :
    generateRobotFromPrompt prompt (some k) (Except.error ()) parse = none ∧
    generateRobotFromPrompt prompt (some k) (Except.ok none) parse = none ∧
    generateRobotFromPrompt prompt (some k) (Except.ok (some "")) parse = none ∧
    (∀ t, parse (extractJsonString t) = none →
      generateRobotFromPrompt prompt (some k) (Except.ok (some t)) parse = none) ∧
    (∀ t r,
      generateRobotFromPrompt prompt (some k) (Except.ok (some t)) parse = some r →
      ∃ pr, parse (extractJsonString t) = some pr ∧ r = buildResponse pr) := by
  refine ⟨gen_network_error prompt k hk hEgg parse, ?_, ?_, ?_, ?_⟩
  · rw [gen_ok_eq_processText prompt k hk hEgg none parse]
    rfl
  · rw [gen_ok_eq_processText prompt k hk hEgg (some "") parse]
    simp [processText]
  · intro t hp
    rw [gen_ok_eq_processText prompt k hk hEgg (some t) parse]
    exact processText_parse_none t parse hp
  · intro t r hr
    rw [gen_ok_eq_processText prompt k hk hEgg (some t) parse] at hr
    exact processText_some_inv t parse r hr

/-- Witness for C7: a thrown network call and a parse failure both yield
`null` at concrete inputs. -/
theorem outer_failure_null_witness :
    generateRobotFromPrompt "hello robot" (some "k") (Except.error ())
      (fun _ => none) = none ∧
    generateRobotFromPrompt "hello robot" (some "k")
      (Except.ok (some "\x7b\x7d")) (fun _ => none) = none := by
  have h := outer_failure_null "hello robot" "k" (fun _ => none)
    (by decide) (by decide)
  exact ⟨h.1, h.2.2.2.1 "\x7b\x7d" rfl⟩

/-- Claim C8 as stated is false: the mapper copies ids verbatim with no
validation, so a reply whose link descriptor has an empty id produces a
non-`null` result whose robot data contains a link record with an empty id,
stored under the empty key. -/
theorem robotData_empty_id_counterexample :
    generateRobotFromPrompt "make a robot" (some "key")
        (Except.ok (some "\x7b\x7d")) (fun _ => some emptyIdParsed) =
      some { explanation := some "ok", actionType := some "generation",
             robotData := some (mapRobotData emptyIdPayload) } ∧
    (mapRobotData emptyIdPayload).links.map (fun kv => kv.2.id) = [some ""] ∧
    (mapRobotData emptyIdPayload).links.map (fun kv => kv.1) = [""] := by
  refine ⟨?_, ?_, ?_⟩ <;> decide

/-- Claim C8 (amended): ids are copied verbatim from the wire descriptors, so
whenever every link and joint descriptor of the payload carries a present,
non-empty id string, every mapped record and every mapping key is a
non-empty id. -/
theorem mapped_ids_nonempty (d : RobotDataWire)
    (hL : ∀ l ∈ d.links.getD [], l.id ≠ none ∧ l.id ≠ some "")
    (hJ : ∀ j ∈ d.joints.getD [], j.id ≠ none ∧ j.id ≠ some "") :
    (∀ kv ∈ (mapRobotData d).links, kv.1 ≠ "" ∧ ∃ s, kv.2.id = some s ∧ s ≠ "") ∧
    (∀ kv ∈ (mapRobotData d).joints, kv.1 ≠ "" ∧ ∃ s, kv.2.id = some s ∧ s ≠ "") := by
  constructor
  · intro kv hkv
    cases hdl : d.links with
    | none =>
      simp only [mapRobotData, hdl] at hkv
      simp at hkv
    | some ls =>
      simp only [mapRobotData, hdl] at hkv
      unfold mapLinks at hkv
      rcases mem_foldl_insertRec (fun l => jsKey l.id) mapLink ls [] kv hkv with
        h3 | ⟨l, hl, he⟩
      · simp at h3
      · have h4 := hL l (by rw [hdl]; simpa using hl)
        rcases hid : l.id with _ | s
        · exact absurd hid h4.1
        · have hne : s ≠ "" := by
            intro hcon
            exact h4.2 (by rw [hid, hcon])
          subst he
          refine ⟨?_, s, ?_, hne⟩
          · simpa [jsKey, hid] using hne
          · show (mapLink l).id = some s
            exact hid
  · intro kv hkv
    cases hdj : d.joints with
    | none =>
      simp only [mapRobotData, hdj] at hkv
      simp at hkv
    | some js =>
      simp only [mapRobotData, hdj] at hkv
      unfold mapJoints at hkv
      rcases mem_foldl_insertRec (fun j => jsKey j.id) mapJoint js [] kv hkv with
        h3 | ⟨j, hj, he⟩
      · simp at h3
      · have h4 := hJ j (by rw [hdj]; simpa using hj)
        rcases hid : j.id with _ | s
        · exact absurd hid h4.1
        · have hne : s ≠ "" := by
            intro hcon
            exact h4.2 (by rw [hid, hcon])
          subst he
          refine ⟨?_, s, ?_, hne⟩
          · simpa [jsKey, hid] using hne
          · show (mapJoint j).id = some s
            exact hid

/-- Witness for the amended C8 at a payload whose descriptors all have
non-empty ids. -/
theorem mapped_ids_nonempty_witness :
    ("base_link" : String) ≠ "" ∧ ∃ s, (mapLink goodLink).id = some s ∧ s ≠ "" :=
  (mapped_ids_nonempty goodPayload (by decide) (by decide)).1
    ("base_link", mapLink goodLink) (by decide)

/-- Claim C9: the robot-data mapper is a pure function of the parsed payload;
mapping equal payloads (in the same or separate calls) yields identical link
and joint records. -/
theorem mapper_deterministic (d1 d2 : RobotDataWire) (h : d1 = d2) :
    (mapRobotData d1).links = (mapRobotData d2).links ∧
    (mapRobotData d1).joints = (mapRobotData d2).joints ∧
    mapRobotData d1 = mapRobotData d2 := by
  rw [h]
  exact ⟨rfl, rfl, rfl⟩

/-- Witness for C9 at a concrete payload. -/
theorem mapper_deterministic_witness :
    (mapRobotData goodPayload).links = (mapRobotData goodPayload).links ∧
    (mapRobotData goodPayload).joints = (mapRobotData goodPayload).joints ∧
    mapRobotData goodPayload = mapRobotData goodPayload :=
  mapper_deterministic goodPayload goodPayload rfl

/-- Claim C10: a reply whose fenced block has whitespace-only inner content
yields an empty capture that is used unconditionally: despite a valid
brace-delimited object outside the fence, the adapter returns `null` with no
fallback to the brace-span heuristic. -/
theorem empty_fence_no_fallback :
    fencedBlockContent emptyFenceReply = some "" ∧
    braceSpan emptyFenceReply =
      "\x7b\"explanation\":\"x\",\"actionType\":\"advice\"\x7d" ∧
    ∀ parse, generateRobotFromPrompt "draw a dog" (some "key")
      (Except.ok (some emptyFenceReply)) parse = none := by
  refine ⟨by decide, by decide, ?_⟩
  intro parse
  rw [gen_ok_eq_processText "draw a dog" "key" (by decide) (by decide)
    (some emptyFenceReply) parse]
  exact processText_empty_extract emptyFenceReply parse (by decide)

/-- Witness for C10 at a concrete parser argument. -/
theorem empty_fence_no_fallback_witness :
    generateRobotFromPrompt "draw a dog" (some "key")
      (Except.ok (some emptyFenceReply)) (fun _ => none) = none :=
  empty_fence_no_fallback.2.2 (fun _ => none)

end GeminiService
